import Mathlib

/-!
Shallow embedding of the sidebar loader (`load-sidebar.js`) of the web-cqms
repository: the reversal workflow-state classifier, the pending-state
predicate, the notification counter cache, the badge display functions and
the role-gated navigation visibility, together with theorems settling the
frozen claims about them.

Modelling conventions:
* JavaScript field values are modelled by `JsVal` (undefined, null, boolean,
  number, string).  Database text columns (reviewer names, the legacy
  acknowledgement-status field) are modelled as `Option String` (`none` for
  null/undefined); on those columns the code calls string methods, and the
  empty string and null behave identically in every use below.
* `localStorage` is modelled as a partial map `Store := String → Option String`.
* `Date.now()` is passed explicitly as a `Nat` parameter `now`.
* A DOM badge is modelled by its observable display state `Option String`:
  `some s` means the badge is visible with text `s`, `none` means hidden.
* JS `parseInt(s, 10)` is modelled by `jsParseNat`; the only strings this
  module ever stores are canonical decimal representations produced by
  `toString()` (modelled by `Nat.repr`), on which the two agree, and a failed
  parse (JS `NaN`) is `none`.
-/

namespace LoadSidebar

/-- A JavaScript primitive value, as stored in a reversal record field. -/
inductive JsVal where
  | undefined
  | null
  | bool (b : Bool)
  | num (n : Int)
  | str (s : String)
deriving DecidableEq

/-- JS truthiness of a primitive value (`if (v)`).  `NaN` is not modelled;
no field below ever holds it. -/
def truthy : JsVal → Bool
  | .undefined => false
  | .null => false
  | .bool b => b
  | .num n => decide (n ≠ 0)
  | .str s => decide (s ≠ "")

/-- The recurring source idiom
`v === true || v === 'true' || v === 1 || v === '1'`. -/
def isTrueEncoding (v : JsVal) : Bool :=
  decide (v = .bool true) || decide (v = .str "true") ||
  decide (v = .num 1) || decide (v = .str "1")

/-- The recurring source idiom
`v === false || v === 'false' || v === 0 || v === '0'`. -/
def isFalseEncoding (v : JsVal) : Bool :=
  decide (v = .bool false) || decide (v = .str "false") ||
  decide (v = .num 0) || decide (v = .str "0")

/-- JS `s.toLowerCase()`; ASCII case mapping, which covers every string this
module compares after lowering. -/
def jsToLower (s : String) : String :=
  (s.toList.map Char.toLower).asString

/-- JS `s.trim()`; ASCII whitespace, which covers the stored reviewer-name
and status columns. -/
def jsTrim (s : String) : String :=
  (((s.toList.dropWhile Char.isWhitespace).reverse.dropWhile
      Char.isWhitespace).reverse).asString

/-- JS `parseInt(s, 10)` on the canonical decimal strings this module stores
(`toString()` output: nonempty, all digits); `none` models `NaN`. -/
def jsParseNat (s : String) : Option Nat :=
  if s.toList ≠ [] ∧ s.toList.all (·.isDigit) then
    some (s.toList.foldl (fun n c => n * 10 + (c.toNat - 48)) 0)
  else none

/-- Truthiness of `x && x.trim()` for a text column `x` (null or string). -/
def truthyTrimmed : Option String → Bool
  | none => false
  | some s => decide (s ≠ "") && decide (jsTrim s ≠ "")

/-- JS `(a || b || '')` for two text columns: first truthy value, else `''`. -/
def jsOrEmptyStr (a b : Option String) : String :=
  match a with
  | some s => if s ≠ "" then s else match b with
    | some t => if t ≠ "" then t else ""
    | none => ""
  | none => match b with
    | some t => if t ≠ "" then t else ""
    | none => ""

/-- Boolean prefix test on character lists (JS `startsWith` at one point). -/
def charListPre : List Char → List Char → Bool
  | [], _ => true
  | _ :: _, [] => false
  | a :: as, b :: bs => a == b && charListPre as bs

/-- Boolean infix test on character lists. -/
def charListIncl (p : List Char) : List Char → Bool
  | [] => charListPre p []
  | c :: t => charListPre p (c :: t) || charListIncl p t

/-- JS `s.includes(pat)`: `pat` occurs as a contiguous substring of `s`. -/
def strIncludes (s pat : String) : Bool :=
  charListIncl pat.toList s.toList

/-- A reversal record: the fields of the merged audit/reversal row that the
sidebar's classifier and pending predicate read.  Absent fields default to
`JsVal.undefined` / `none`. -/
structure Reversal where
  reversal_workflow_state : JsVal := .undefined
  team_lead_approved : JsVal := .undefined
  teamLeadApproved : JsVal := .undefined
  team_lead_reviewed_by : Option String := none
  teamLeadReviewedBy : Option String := none
  acknowledgement_status : Option String := none
  acknowledgementStatus : Option String := none
  reversal_approved : JsVal := .undefined

/-- `getReversalWorkflowState(reversal)` from `load-sidebar.js` (lines
978-1015): explicit-state branch with team-lead override, then the legacy
keyword fallback, then the legacy boolean `reversal_approved` fallback. -/
def getReversalWorkflowState (r : Reversal) : JsVal :=
  if truthy r.reversal_workflow_state then
    let dbWorkflowState := r.reversal_workflow_state
    let teamLeadApproved :=
      isTrueEncoding r.team_lead_approved || isTrueEncoding r.teamLeadApproved
    let teamLeadRejected :=
      isFalseEncoding r.team_lead_approved || isFalseEncoding r.teamLeadApproved
    let hasTeamLeadReviewed := teamLeadApproved || teamLeadRejected ||
      truthyTrimmed r.team_lead_reviewed_by || truthyTrimmed r.teamLeadReviewedBy
    if (dbWorkflowState = .str "qa_review" ∨ dbWorkflowState = .str "cqc_review")
        ∧ ¬hasTeamLeadReviewed then
      .str "team_lead_review"
    else if teamLeadRejected then
      .str "team_lead_rejected"
    else
      dbWorkflowState
  else
    let ackStatus :=
      jsToLower (jsOrEmptyStr r.acknowledgement_status r.acknowledgementStatus)
    if strIncludes ackStatus "team_lead_review" then .str "team_lead_review"
    else if strIncludes ackStatus "team_lead_rejected" then .str "team_lead_rejected"
    else if strIncludes ackStatus "qa_review" || strIncludes ackStatus "auditor_review" then
      .str "qa_review"
    else if strIncludes ackStatus "cqc_review" then .str "cqc_review"
    else if strIncludes ackStatus "cqc_sent_back" then .str "cqc_sent_back"
    else if strIncludes ackStatus "agent_re_review" then .str "agent_re_review"
    else if strIncludes ackStatus "reversal_approved" then .str "approved"
    else if strIncludes ackStatus "reversal_rejected" then .str "rejected"
    else if ackStatus = "acknowledged" ∨ strIncludes ackStatus "acknowledged" then
      .str "acknowledged"
    else
      let approved := r.reversal_approved
      if approved = .null ∨ approved = .undefined then .str "pending"
      else if isTrueEncoding approved then .str "approved"
      else if isFalseEncoding approved then .str "rejected"
      else .str "pending"

/-- The fixed `pendingStates` array of `isPendingWorkflowState`. -/
def pendingStates : List JsVal :=
  [.str "pending", .str "submitted", .str "team_lead_review",
   .str "team_lead_approved", .str "qa_review", .str "cqc_review",
   .str "cqc_sent_back", .str "agent_re_review"]

/-- `isPendingWorkflowState(reversal)` from `load-sidebar.js` (lines
1020-1052): fixed pending-state list, then team-lead-approved-with-no-final-
decision, then the two composite legacy substrings, then the redundant
review-state clause. -/
def isPendingWorkflowState (r : Reversal) : Bool :=
  let workflowState := getReversalWorkflowState r
  if workflowState ∈ pendingStates then true
  else
    let teamLeadApproved :=
      isTrueEncoding r.team_lead_approved || isTrueEncoding r.teamLeadApproved
    let finalDecision := r.reversal_approved
    let hasFinalDecision :=
      decide (finalDecision ≠ .null) && decide (finalDecision ≠ .undefined)
    if teamLeadApproved && !hasFinalDecision then true
    else
      let ackStatus :=
        jsToLower (jsOrEmptyStr r.acknowledgement_status r.acknowledgementStatus)
      if strIncludes ackStatus "pending - reversal_approved" ||
          strIncludes ackStatus "pending - reversal_rejected" then true
      else if workflowState = .str "qa_review" ∨ workflowState = .str "cqc_review" then
        true
      else false

/-- The variant of `isPendingWorkflowState` with its final (redundant)
review-state clause removed — the comparison version for the refinement
claim that the final clause is dead code. -/
def isPendingWorkflowStateNoFinalClause (r : Reversal) : Bool :=
  let workflowState := getReversalWorkflowState r
  if workflowState ∈ pendingStates then true
  else
    let teamLeadApproved :=
      isTrueEncoding r.team_lead_approved || isTrueEncoding r.teamLeadApproved
    let finalDecision := r.reversal_approved
    let hasFinalDecision :=
      decide (finalDecision ≠ .null) && decide (finalDecision ≠ .undefined)
    if teamLeadApproved && !hasFinalDecision then true
    else
      let ackStatus :=
        jsToLower (jsOrEmptyStr r.acknowledgement_status r.acknowledgementStatus)
      if strIncludes ackStatus "pending - reversal_approved" ||
          strIncludes ackStatus "pending - reversal_rejected" then true
      else false

/-- The ten workflow-state labels of the specification. -/
def tenLabels : List String :=
  ["team_lead_review", "team_lead_rejected", "qa_review", "cqc_review",
   "cqc_sent_back", "agent_re_review", "approved", "rejected",
   "acknowledged", "pending"]

/-- The `userInfo` object read from `localStorage` (`getUserInfo()`): the
fields this component consumes.  `none` models an absent field. -/
structure UserInfo where
  email : Option String := none
  role : Option String := none
  name : Option String := none

/-- JS `x || dflt` for a text field `x`: the field when truthy, else the
default. -/
def jsOrDefault (x : Option String) (dflt : String) : String :=
  match x with
  | some s => if s ≠ "" then s else dflt
  | none => dflt

/-- The normalized user email used in notification cache keys:
`(userInfo.email || 'anonymous').toLowerCase().trim()`, and `'anonymous'`
when no user object is present. -/
def normalizedCacheEmail (u : Option UserInfo) : String :=
  match u with
  | some info => jsTrim (jsToLower (jsOrDefault info.email "anonymous"))
  | none => "anonymous"

/-- `getNotificationCacheKey(type)`. -/
def getNotificationCacheKey (u : Option UserInfo) (type : String) : String :=
  "notification_count_" ++ type ++ "_" ++ normalizedCacheEmail u

/-- `getNotificationCacheTimestampKey(type)`. -/
def getNotificationCacheTimestampKey (u : Option UserInfo) (type : String) : String :=
  "notification_count_" ++ type ++ "_timestamp_" ++ normalizedCacheEmail u

/-- `localStorage`, as a partial map from keys to stored strings. -/
def Store : Type := String → Option String

/-- `localStorage.getItem(k)`. -/
def lsGetItem (st : Store) (k : String) : Option String := st k

/-- `localStorage.setItem(k, v)`. -/
def lsSetItem (st : Store) (k v : String) : Store :=
  fun q => if q = k then some v else st q

/-- `localStorage.removeItem(k)`. -/
def lsRemoveItem (st : Store) (k : String) : Store :=
  fun q => if q = k then none else st q

/-- An empty `localStorage`. -/
def emptyStore : Store := fun _ => none

/-- `this.CACHE_DURATION_MS = 5 * 60 * 1000`. -/
def CACHE_DURATION_MS : Nat := 5 * 60 * 1000

/-- Truthiness of a `getItem` result (`!cachedData` is true for both a
missing key and an empty stored string). -/
def truthyItem : Option String → Bool
  | none => false
  | some s => decide (s ≠ "")

/-- `getCachedNotificationCount(type)` (lines 868-895): returns the parsed
cached count (`none` models JS `null` and a failed parse) together with the
store, from which an expired entry has been removed.  A timestamp that fails
to parse makes the expiry comparison false in JS (`NaN > _` is false), so the
entry is then treated as valid. -/
def getCachedNotificationCount (u : Option UserInfo) (type : String) (now : Nat)
    (st : Store) : Option Nat × Store :=
  let cacheKey := getNotificationCacheKey u type
  let timestampKey := getNotificationCacheTimestampKey u type
  let cachedData := lsGetItem st cacheKey
  let cachedTimestamp := lsGetItem st timestampKey
  if !truthyItem cachedData || !truthyItem cachedTimestamp then
    (none, st)
  else
    match jsParseNat (cachedTimestamp.getD "") with
    | some timestamp =>
      if now - timestamp > CACHE_DURATION_MS then
        (none, lsRemoveItem (lsRemoveItem st cacheKey) timestampKey)
      else
        (jsParseNat (cachedData.getD ""), st)
    | none => (jsParseNat (cachedData.getD ""), st)

/-- `setCachedNotificationCount(type, count)` (lines 900-909): stores the
decimal rendering of the count under the cache key and the decimal rendering
of `Date.now()` under the timestamp key. -/
def setCachedNotificationCount (u : Option UserInfo) (type : String)
    (count : Nat) (now : Nat) (st : Store) : Store :=
  let cacheKey := getNotificationCacheKey u type
  let timestampKey := getNotificationCacheTimestampKey u type
  lsSetItem (lsSetItem st cacheKey (Nat.repr count)) timestampKey (Nat.repr now)

/-- `setReversalBadgeCount(count)` (lines 1303-1313), as the badge's
observable display state: `some s` = visible with text `s`, `none` = hidden. -/
def setReversalBadgeCount (count : Nat) : Option String :=
  if count > 0 then some (if count > 99 then "99+" else Nat.repr count)
  else none

/-- `setAcknowledgmentBadgeCount(count)` (lines 1539-1549). -/
def setAcknowledgmentBadgeCount (count : Nat) : Option String :=
  if count > 0 then some (if count > 99 then "99+" else Nat.repr count)
  else none

/-- `setEmployeeReversalBadgeCount(count)` (lines 1417-1434): additionally
hidden whenever a user object is present whose role is not `Employee`. -/
def setEmployeeReversalBadgeCount (u : Option UserInfo) (count : Nat) :
    Option String :=
  match u with
  | some info =>
    if info.role ≠ some "Employee" then none
    else if count > 0 then some (if count > 99 then "99+" else Nat.repr count)
    else none
  | none =>
    if count > 0 then some (if count > 99 then "99+" else Nat.repr count)
    else none

/-- The `catch` handler of `updatePendingReversalsCount` (lines 1289-1297):
read the cached count and display it, else display zero.  Result: the store
after the fallback read, and the badge display. -/
def updatePendingReversalsCountCatch (u : Option UserInfo) (now : Nat)
    (st : Store) : Store × Option String :=
  match getCachedNotificationCount u "reversals" now st with
  | (some cachedCount, st') => (st', setReversalBadgeCount cachedCount)
  | (none, st') => (st', setReversalBadgeCount 0)

/-- The `catch` handler of `updateEmployeeReversalUpdatesCount`
(lines 1402-1411). -/
def updateEmployeeReversalUpdatesCountCatch (u : Option UserInfo) (now : Nat)
    (st : Store) : Store × Option String :=
  match getCachedNotificationCount u "employeeReversals" now st with
  | (some cachedCount, st') => (st', setEmployeeReversalBadgeCount u cachedCount)
  | (none, st') => (st', setEmployeeReversalBadgeCount u 0)

/-- The `catch` handler of `updatePendingAcknowledgmentsCount`
(lines 1524-1533). -/
def updatePendingAcknowledgmentsCountCatch (u : Option UserInfo) (now : Nat)
    (st : Store) : Store × Option String :=
  match getCachedNotificationCount u "acknowledgments" now st with
  | (some cachedCount, st') => (st', setAcknowledgmentBadgeCount cachedCount)
  | (none, st') => (st', setAcknowledgmentBadgeCount 0)

/-- The success tail of `updatePendingReversalsCount` (lines 1287-1288):
after a successful recomputation the cache is overwritten and the badge set. -/
def updatePendingReversalsCountSuccess (u : Option UserInfo) (count : Nat)
    (now : Nat) (st : Store) : Store × Option String :=
  (setCachedNotificationCount u "reversals" count now st,
   setReversalBadgeCount count)

/-- The success tail of `updatePendingAcknowledgmentsCount`
(lines 1522-1523). -/
def updatePendingAcknowledgmentsCountSuccess (u : Option UserInfo) (count : Nat)
    (now : Nat) (st : Store) : Store × Option String :=
  (setCachedNotificationCount u "acknowledgments" count now st,
   setAcknowledgmentBadgeCount count)

/-- The success tail of `updateEmployeeReversalUpdatesCount`
(lines 1400-1401). -/
def updateEmployeeReversalUpdatesCountSuccess (u : Option UserInfo)
    (count : Nat) (now : Nat) (st : Store) : Store × Option String :=
  (setCachedNotificationCount u "employeeReversals" count now st,
   setEmployeeReversalBadgeCount u count)

/-- The `localStorage` contents of the C8 counterexample: a cached reversals
count of 7 written at timestamp 0 (stale by read time 300001). -/
def c8StaleStore : Store :=
  lsSetItem (lsSetItem emptyStore (getNotificationCacheKey none "reversals") "7")
    (getNotificationCacheTimestampKey none "reversals") "0"

/-- The navigation entries `hideEmployeeMenuItems` (lines 1554-1631) hides
for the `Employee` role, identified by the selector the source uses for each:
five top-level entries by `aria-label` (the auditor dashboard entry is
located under either of two apostrophe variants) and two Settings submenu
entries by `href`. -/
def employeeHiddenMenuEntries : List String :=
  ["Auditor\x27s Dashboard", "Create New Audit", "Audit Distribution",
   "Improvement Corner", "Search", "scorecards.html", "user-management.html"]

/-- `hideEmployeeMenuItems()`: the set of navigation entries hidden, as a
function of the stored user.  No user, or any role other than `Employee`
(`userInfo.role || ''`), hides nothing. -/
def hideEmployeeMenuItems (u : Option UserInfo) : List String :=
  match u with
  | none => []
  | some info =>
    if jsOrDefault info.role "" = "Employee" then employeeHiddenMenuEntries
    else []

/-- `updateAccessControlMenuItem()` (lines 1639-1653): whether the
`accessControlMenuItem` entry (hidden by default in the sidebar markup) is
shown (`display: block`). -/
def updateAccessControlMenuItem (u : Option UserInfo) : Bool :=
  match u with
  | some info => info.role = some "Super Admin"
  | none => false

/-- The keyword substrings the legacy fallback of
`getReversalWorkflowState` tests, in source order. -/
def legacyStatusKeywords : List String :=
  ["team_lead_review", "team_lead_rejected", "qa_review", "auditor_review",
   "cqc_review", "cqc_sent_back", "agent_re_review", "reversal_approved",
   "reversal_rejected", "acknowledged"]

/-- Proof-support reformulation of `Nat.toDigitsCore` base 10 without fuel:
the decimal digit characters of `n`, most significant first. -/
def natDigits (n : Nat) : List Char :=
  if n < 10 then [Nat.digitChar n]
  else natDigits (n / 10) ++ [Nat.digitChar (n % 10)]
decreasing_by exact Nat.div_lt_self (by omega) (by omega)

end LoadSidebar

namespace LoadSidebar

/-! ## Supporting lemmas -/

theorem natDigits_eq_toDigitsCore (f : Nat) :
    ∀ n ds, n < f → Nat.toDigitsCore 10 f n ds = natDigits n ++ ds := by
  induction f with
  | zero => intro n ds h; omega
  | succ f ih =>
    intro n ds hn
    rw [Nat.toDigitsCore]
    by_cases h10 : n / 10 = 0
    · have hlt : n < 10 := by omega
      rw [if_pos h10, natDigits, if_pos hlt, Nat.mod_eq_of_lt hlt]
      simp
    · have hge : 10 ≤ n := by
        by_contra hc
        exact h10 (Nat.div_eq_of_lt (by omega))
      have hdiv : n / 10 < n := Nat.div_lt_self (by omega) (by omega)
      rw [if_neg h10, ih (n / 10) _ (by omega)]
      conv_rhs => rw [natDigits, if_neg (by omega)]
      simp

theorem repr_eq_natDigits (n : Nat) : Nat.repr n = (natDigits n).asString := by
  rw [Nat.repr, Nat.toDigits, natDigits_eq_toDigitsCore (n + 1) n [] (by omega)]
  simp

theorem natDigits_ne_nil (n : Nat) : natDigits n ≠ [] := by
  rw [natDigits]
  split <;> simp

theorem digitChar_isDigit {m : Nat} (h : m < 10) :
    (Nat.digitChar m).isDigit = true := by
  interval_cases m <;> decide

theorem digitChar_toNat_sub {m : Nat} (h : m < 10) :
    (Nat.digitChar m).toNat - 48 = m := by
  interval_cases m <;> decide

theorem natDigits_all_isDigit (n : Nat) :
    ∀ c ∈ natDigits n, c.isDigit = true := by
  induction n using Nat.strong_induction_on with
  | _ n ih =>
    intro c hc
    rw [natDigits] at hc
    split at hc
    · next h =>
      simp only [List.mem_singleton] at hc
      exact hc ▸ digitChar_isDigit h
    · next h =>
      rcases List.mem_append.mp hc with h1 | h1
      · exact ih (n / 10) (Nat.div_lt_self (by omega) (by omega)) c h1
      · simp only [List.mem_singleton] at h1
        exact h1 ▸ digitChar_isDigit (Nat.mod_lt _ (by omega))

theorem natDigits_foldl (n : Nat) :
    ∀ a : Nat,
      (natDigits n).foldl (fun acc c => acc * 10 + (c.toNat - 48)) a =
        a * 10 ^ (natDigits n).length + n := by
  induction n using Nat.strong_induction_on with
  | _ n ih =>
    intro a
    rw [natDigits]
    split
    · next h =>
      simp [digitChar_toNat_sub h]
    · next h =>
      rw [List.foldl_append, ih (n / 10) (Nat.div_lt_self (by omega) (by omega)) a]
      simp only [List.foldl_cons, List.foldl_nil, List.length_append,
        List.length_singleton]
      rw [digitChar_toNat_sub (Nat.mod_lt _ (by omega))]
      have hdm : n / 10 * 10 + n % 10 = n := by omega
      rw [pow_succ]
      ring_nf
      omega

theorem jsParseNat_repr (n : Nat) : jsParseNat (Nat.repr n) = some n := by
  rw [repr_eq_natDigits, jsParseNat]
  rw [if_pos]
  · rw [List.toList_asString, natDigits_foldl n 0]
    simp
  · constructor
    · rw [List.toList_asString]
      exact natDigits_ne_nil n
    · rw [List.toList_asString, List.all_eq_true]
      exact natDigits_all_isDigit n

theorem repr_ne_empty (n : Nat) : Nat.repr n ≠ "" := by
  rw [repr_eq_natDigits]
  intro h
  rw [show ("" : String) = List.asString [] from rfl, List.asString_inj] at h
  exact natDigits_ne_nil n h

theorem lsGetItem_setItem_same (st : Store) (k v : String) :
    lsGetItem (lsSetItem st k v) k = some v := by
  simp [lsGetItem, lsSetItem]

theorem lsGetItem_setItem_ne (st : Store) {k q : String} (v : String)
    (h : q ≠ k) : lsGetItem (lsSetItem st k v) q = lsGetItem st q := by
  simp [lsGetItem, lsSetItem, h]

theorem cacheKey_ne_timestampKey (u : Option UserInfo) (type : String) :
    getNotificationCacheKey u type ≠ getNotificationCacheTimestampKey u type := by
  intro h
  rw [getNotificationCacheKey, getNotificationCacheTimestampKey] at h
  have hd := congrArg String.data h
  have hlen := congrArg List.length hd
  simp only [show ∀ a b : String, (a ++ b).data = a.data ++ b.data from
    fun _ _ => rfl, List.length_append, List.length_cons, List.length_nil,
    String.data] at hlen
  omega

theorem getCachedNotificationCount_after_set (u : Option UserInfo)
    (type : String) (count tw tr : Nat) (st : Store) :
    getCachedNotificationCount u type tr
        (setCachedNotificationCount u type count tw st) =
      if tr - tw > CACHE_DURATION_MS then
        (none,
         lsRemoveItem
           (lsRemoveItem (setCachedNotificationCount u type count tw st)
             (getNotificationCacheKey u type))
           (getNotificationCacheTimestampKey u type))
      else (some count, setCachedNotificationCount u type count tw st) := by
  have hne := cacheKey_ne_timestampKey u type
  rw [getCachedNotificationCount, setCachedNotificationCount]
  rw [lsGetItem_setItem_same, lsGetItem_setItem_ne _ _ hne,
    lsGetItem_setItem_same]
  simp only [show truthyItem (some (Nat.repr count)) = true by
      simp [truthyItem, repr_ne_empty],
    show truthyItem (some (Nat.repr tw)) = true by
      simp [truthyItem, repr_ne_empty],
    Bool.not_true, Bool.or_self, Bool.false_eq_true, if_false,
    Option.getD_some, jsParseNat_repr]

theorem getCachedNotificationCount_of_fresh (u : Option UserInfo)
    (type : String) (c t tr : Nat) (st : Store)
    (hd : lsGetItem st (getNotificationCacheKey u type) = some (Nat.repr c))
    (ht : lsGetItem st (getNotificationCacheTimestampKey u type) =
      some (Nat.repr t))
    (hfresh : tr - t ≤ CACHE_DURATION_MS) :
    getCachedNotificationCount u type tr st = (some c, st) := by
  rw [getCachedNotificationCount, hd, ht]
  simp only [show truthyItem (some (Nat.repr c)) = true by
      simp [truthyItem, repr_ne_empty],
    show truthyItem (some (Nat.repr t)) = true by
      simp [truthyItem, repr_ne_empty],
    Bool.not_true, Bool.or_self, Bool.false_eq_true, if_false,
    Option.getD_some, jsParseNat_repr]
  rw [if_neg (by omega)]

theorem getCachedNotificationCount_of_missing (u : Option UserInfo)
    (type : String) (tr : Nat) (st : Store)
    (hd : lsGetItem st (getNotificationCacheKey u type) = none) :
    getCachedNotificationCount u type tr st = (none, st) := by
  rw [getCachedNotificationCount, hd]
  simp [truthyItem]

/-- Claim C6: writing count 42 for category `reversals` under a given user
and then reading the same category and user returns 42 whenever the elapsed
time since the write is within the 5-minute freshness window, and returns a
miss (`none`) — with both entries of the stale pair removed — whenever the
elapsed time exceeds the window. -/
theorem c6_cache_round_trip (u : Option UserInfo) (st : Store) (tw tr : Nat) :
    (tr - tw ≤ CACHE_DURATION_MS →
      getCachedNotificationCount u "reversals" tr
          (setCachedNotificationCount u "reversals" 42 tw st) =
        (some 42, setCachedNotificationCount u "reversals" 42 tw st)) ∧
    (CACHE_DURATION_MS < tr - tw →
      getCachedNotificationCount u "reversals" tr
          (setCachedNotificationCount u "reversals" 42 tw st) =
        (none,
         lsRemoveItem
           (lsRemoveItem (setCachedNotificationCount u "reversals" 42 tw st)
             (getNotificationCacheKey u "reversals"))
           (getNotificationCacheTimestampKey u "reversals"))) := by
  constructor
  · intro h
    rw [getCachedNotificationCount_after_set, if_neg (by omega)]
  · intro h
    rw [getCachedNotificationCount_after_set, if_pos (by omega)]

/-- Witness for C6 at concrete inputs: a write at time 50 read at time 100
(fresh) returns 42, and read at time 300051 (expired) misses. -/
theorem c6_cache_round_trip_witness :
    (100 - 50 ≤ CACHE_DURATION_MS ∧
      getCachedNotificationCount none "reversals" 100
          (setCachedNotificationCount none "reversals" 42 50 emptyStore) =
        (some 42, setCachedNotificationCount none "reversals" 42 50 emptyStore)) ∧
    (CACHE_DURATION_MS < 300051 - 50 ∧
      getCachedNotificationCount none "reversals" 300051
          (setCachedNotificationCount none "reversals" 42 50 emptyStore) =
        (none,
         lsRemoveItem
           (lsRemoveItem (setCachedNotificationCount none "reversals" 42 50 emptyStore)
             (getNotificationCacheKey none "reversals"))
           (getNotificationCacheTimestampKey none "reversals"))) :=
  ⟨⟨by decide, (c6_cache_round_trip none emptyStore 50 100).1 (by decide)⟩,
   ⟨by decide, (c6_cache_round_trip none emptyStore 50 300051).2 (by decide)⟩⟩

/-- A record carrying the explicit state `"submitted"` — a value the code
itself produces (`workflowStateMap.get(..) || 'submitted'`) yet outside the
ten labels. -/
def c1Record : Reversal := { reversal_workflow_state := .str "submitted" }

/-- Claim C1 is false as stated: on a record whose explicit current-state
field is present and equals `"submitted"`, the classifier returns the raw
input string `"submitted"`, which is not one of the ten fixed labels. -/
theorem c1_counterexample :
    truthy c1Record.reversal_workflow_state = true ∧
    getReversalWorkflowState c1Record = .str "submitted" ∧
    "submitted" ∉ tenLabels := by decide

/-- Claim C1 amended: on a record with a present explicit current-state
field, the classifier returns `team_lead_review`, `team_lead_rejected`, or
the explicit state verbatim — so the output stays in the ten labels only
when the explicit state itself does. -/
theorem c1_amended_explicit_state_verbatim (r : Reversal)
    (h : truthy r.reversal_workflow_state = true) :
    getReversalWorkflowState r = .str "team_lead_review" ∨
    getReversalWorkflowState r = .str "team_lead_rejected" ∨
    getReversalWorkflowState r = r.reversal_workflow_state := by
  simp only [getReversalWorkflowState, h, if_true]
  split_ifs <;> simp

/-- Witness for the amended C1 at a concrete record. -/
theorem c1_amended_witness :
    truthy c1Record.reversal_workflow_state = true ∧
    (getReversalWorkflowState c1Record = .str "team_lead_review" ∨
     getReversalWorkflowState c1Record = .str "team_lead_rejected" ∨
     getReversalWorkflowState c1Record = c1Record.reversal_workflow_state) :=
  ⟨by decide, c1_amended_explicit_state_verbatim c1Record (by decide)⟩

theorem ite_mem {c : Prop} [Decidable c] {a b : JsVal} {L : List JsVal}
    (ha : a ∈ L) (hb : b ∈ L) : (if c then a else b) ∈ L := by
  by_cases hc : c
  · rw [if_pos hc]; exact ha
  · rw [if_neg hc]; exact hb

/-- Claim C10: on a record with no explicit current-state field the
legacy-fallback path is total and always produces one of the ten fixed
labels, whatever the legacy status and approved fields hold. -/
theorem c10_fallback_in_ten_labels (r : Reversal)
    (h : truthy r.reversal_workflow_state = false) :
    getReversalWorkflowState r ∈ tenLabels.map JsVal.str := by
  rw [getReversalWorkflowState, if_neg (by rw [h]; exact Bool.false_ne_true)]
  dsimp only
  repeat first
    | apply ite_mem
    | exact (by decide)

/-- Witness for C10 at a concrete record (all fields absent). -/
theorem c10_fallback_witness :
    truthy (Reversal.reversal_workflow_state {}) = false ∧
    getReversalWorkflowState {} ∈ tenLabels.map JsVal.str :=
  ⟨by decide, c10_fallback_in_ten_labels {} (by decide)⟩

/-- A record whose `team_lead_approved` holds the truthy string `"yes"`,
which none of the eight recognized encodings matches, with an explicit
terminal state and no final decision. -/
def c3Record : Reversal :=
  { reversal_workflow_state := .str "approved", team_lead_approved := .str "yes" }

/-- Claim C3 is false as stated: `team_lead_approved` holds a truthy value
(`"yes"`) and the final-decision field is absent, yet the pending predicate
returns `false`, because the code only recognizes the encodings
`true/'true'/1/'1'`. -/
theorem c3_counterexample :
    truthy c3Record.team_lead_approved = true ∧
    c3Record.reversal_approved = .undefined ∧
    isPendingWorkflowState c3Record = false := by decide

/-- Claim C3 amended: whenever `team_lead_approved` (under either spelling)
holds one of the recognized truthy encodings (`true`, `'true'`, `1`, `'1'`)
and `reversal_approved` is null or absent, the pending predicate returns
`true`, regardless of all other fields. -/
theorem c3_amended_recognized_truthy_pending (r : Reversal)
    (h1 : (isTrueEncoding r.team_lead_approved ||
      isTrueEncoding r.teamLeadApproved) = true)
    (h2 : r.reversal_approved = .null ∨ r.reversal_approved = .undefined) :
    isPendingWorkflowState r = true := by
  rw [isPendingWorkflowState]
  dsimp only
  by_cases hm : getReversalWorkflowState r ∈ pendingStates
  · rw [if_pos hm]
  · rw [if_neg hm, if_pos (by rcases h2 with h | h <;> simp [h1, h])]

/-- Witness for the amended C3 at a concrete record. -/
theorem c3_amended_witness :
    (isTrueEncoding (Reversal.team_lead_approved
        { reversal_workflow_state := JsVal.str "approved",
          team_lead_approved := JsVal.bool true }) ||
      isTrueEncoding (Reversal.teamLeadApproved
        { reversal_workflow_state := JsVal.str "approved",
          team_lead_approved := JsVal.bool true })) = true ∧
    isPendingWorkflowState
      { reversal_workflow_state := JsVal.str "approved",
        team_lead_approved := JsVal.bool true } = true :=
  ⟨by decide,
   c3_amended_recognized_truthy_pending
     { reversal_workflow_state := JsVal.str "approved",
       team_lead_approved := JsVal.bool true }
     (by decide) (Or.inr rfl)⟩

/-- A record with explicit state `qa_review`, no reviewer-name fields, but a
recorded team-lead approval flag. -/
def c4Record : Reversal :=
  { reversal_workflow_state := .str "qa_review", team_lead_approved := .bool true }

/-- Claim C4 is false as stated: the reviewer-name fields are absent, the
explicit state is `qa_review`, yet the classifier keeps `qa_review` instead
of overriding to `team_lead_review`, because the recorded approval flag also
counts as a completed team-lead review. -/
theorem c4_counterexample :
    c4Record.team_lead_reviewed_by = none ∧
    c4Record.teamLeadReviewedBy = none ∧
    c4Record.reversal_workflow_state = .str "qa_review" ∧
    getReversalWorkflowState c4Record = .str "qa_review" := by decide

/-- Claim C4 amended: a record with explicit state `qa_review`, blank or
absent reviewer-name fields, and no recognized team-lead approval or
rejection flag under either spelling classifies as `team_lead_review`. -/
theorem c4_amended_qa_review_override (r : Reversal)
    (h1 : r.reversal_workflow_state = .str "qa_review")
    (h2 : truthyTrimmed r.team_lead_reviewed_by = false)
    (h3 : truthyTrimmed r.teamLeadReviewedBy = false)
    (h4 : isTrueEncoding r.team_lead_approved = false)
    (h5 : isTrueEncoding r.teamLeadApproved = false)
    (h6 : isFalseEncoding r.team_lead_approved = false)
    (h7 : isFalseEncoding r.teamLeadApproved = false) :
    getReversalWorkflowState r = .str "team_lead_review" := by
  rw [getReversalWorkflowState, if_pos (by rw [h1]; decide)]
  dsimp only
  rw [if_pos ⟨Or.inl h1, by simp [h2, h3, h4, h5, h6, h7]⟩]

/-- Witness for the amended C4 at a concrete record. -/
theorem c4_amended_witness :
    getReversalWorkflowState { reversal_workflow_state := JsVal.str "qa_review" } =
      .str "team_lead_review" :=
  c4_amended_qa_review_override { reversal_workflow_state := JsVal.str "qa_review" }
    rfl (by decide) (by decide) (by decide) (by decide) (by decide) (by decide)

/-- A record with no explicit state, no legacy status text, and the truthy
but unrecognized final-decision value `"yes"`. -/
def c5Record : Reversal := { reversal_approved := .str "yes" }

/-- Claim C5 is false as stated: on the legacy-boolean fallback path a truthy
`reversal_approved` of `"yes"` yields `pending`, not `approved`, because only
the encodings `true/'true'/1/'1'` are recognized. -/
theorem c5_counterexample :
    truthy c5Record.reversal_approved = true ∧
    c5Record.reversal_workflow_state = .undefined ∧
    c5Record.acknowledgement_status = none ∧
    getReversalWorkflowState c5Record = .str "pending" := by decide

/-- Claim C5 amended: with no explicit state and a legacy status matching
none of the keyword substrings, the classifier maps `reversal_approved` as:
null or absent to `pending`, a recognized truthy encoding to `approved`, a
recognized falsy encoding to `rejected`, and any other value to `pending`. -/
theorem c5_amended_legacy_boolean_mapping (r : Reversal)
    (h0 : truthy r.reversal_workflow_state = false)
    (hk : ∀ kw ∈ legacyStatusKeywords,
      strIncludes
        (jsToLower (jsOrEmptyStr r.acknowledgement_status r.acknowledgementStatus))
        kw = false) :
    getReversalWorkflowState r =
      if r.reversal_approved = .null ∨ r.reversal_approved = .undefined then
        .str "pending"
      else if isTrueEncoding r.reversal_approved then .str "approved"
      else if isFalseEncoding r.reversal_approved then .str "rejected"
      else .str "pending" := by
  have k1 := hk "team_lead_review" (by decide)
  have k2 := hk "team_lead_rejected" (by decide)
  have k3 := hk "qa_review" (by decide)
  have k4 := hk "auditor_review" (by decide)
  have k5 := hk "cqc_review" (by decide)
  have k6 := hk "cqc_sent_back" (by decide)
  have k7 := hk "agent_re_review" (by decide)
  have k8 := hk "reversal_approved" (by decide)
  have k9 := hk "reversal_rejected" (by decide)
  have k10 := hk "acknowledged" (by decide)
  have hterm : ¬(jsToLower
      (jsOrEmptyStr r.acknowledgement_status r.acknowledgementStatus) =
        "acknowledged") := by
    intro he
    have hx : strIncludes
        (jsToLower (jsOrEmptyStr r.acknowledgement_status r.acknowledgementStatus))
        "acknowledged" = true := by rw [he]; decide
    rw [k10] at hx
    exact Bool.false_ne_true hx
  rw [getReversalWorkflowState, if_neg (by rw [h0]; exact Bool.false_ne_true)]
  dsimp only
  rw [if_neg (by simp [k1]), if_neg (by simp [k2]), if_neg (by simp [k3, k4]),
    if_neg (by simp [k5]), if_neg (by simp [k6]), if_neg (by simp [k7]),
    if_neg (by simp [k8]), if_neg (by simp [k9]),
    if_neg (fun hor => hor.elim hterm
      (fun hi => by rw [k10] at hi; exact Bool.false_ne_true hi))]

/-- Witness for the amended C5 at a concrete record: a recognized truthy
encoding maps to `approved`. -/
theorem c5_amended_witness :
    getReversalWorkflowState { reversal_approved := JsVal.bool true } =
      .str "approved" :=
  (c5_amended_legacy_boolean_mapping { reversal_approved := JsVal.bool true }
    (by decide) (by decide)).trans (by decide)

/-- Claim C9: the final clause of `isPendingWorkflowState` (returning true
when the classified state is `qa_review` or `cqc_review`) is redundant — the
predicate agrees everywhere with the variant that omits it, because both
states are already members of the `pendingStates` list checked first. -/
theorem c9_final_clause_redundant (r : Reversal) :
    isPendingWorkflowState r = isPendingWorkflowStateNoFinalClause r := by
  rw [isPendingWorkflowState, isPendingWorkflowStateNoFinalClause]
  dsimp only
  by_cases hm : getReversalWorkflowState r ∈ pendingStates
  · rw [if_pos hm, if_pos hm]
  · rw [if_neg hm, if_neg hm]
    refine if_congr Iff.rfl rfl (if_congr Iff.rfl rfl ?_)
    rw [if_neg]
    rintro (he | he) <;> exact hm (by rw [he]; decide)

/-- Claim C2 is false as stated: for the role `Employee` the code hides
seven navigation entries, not five — the five top-level entries plus the two
Settings submenu entries (`scorecards.html`, `user-management.html`). -/
theorem c2_counterexample :
    (hideEmployeeMenuItems (some { role := some "Employee" })).length = 7 ∧
    (hideEmployeeMenuItems (some { role := some "Employee" })).length ≠ 5 := by
  decide

/-- Claim C2 amended: role `Employee` hides exactly the seven listed
navigation entries (five top-level plus two Settings submenu entries) and
never hides the Profile entry; every other role, and an absent user, hides
nothing; and the Access Control entry is shown exactly when a user is
present whose role is `Super Admin`. -/
theorem c2_amended_role_gating :
    (∀ info : UserInfo, info.role = some "Employee" →
      hideEmployeeMenuItems (some info) = employeeHiddenMenuEntries) ∧
    employeeHiddenMenuEntries.length = 7 ∧
    "profile.html" ∉ employeeHiddenMenuEntries ∧
    (∀ info : UserInfo, info.role ≠ some "Employee" →
      hideEmployeeMenuItems (some info) = []) ∧
    hideEmployeeMenuItems none = [] ∧
    (∀ u : Option UserInfo, updateAccessControlMenuItem u = true ↔
      ∃ info, u = some info ∧ info.role = some "Super Admin") := by
  refine ⟨?_, by decide, by decide, ?_, rfl, ?_⟩
  · intro info h
    rw [hideEmployeeMenuItems, if_pos (by rw [h]; decide)]
  · intro info h
    rw [hideEmployeeMenuItems, if_neg]
    intro he
    apply h
    cases hr : info.role with
    | none => rw [hr] at he; exact absurd he (by decide)
    | some s =>
      rw [hr] at he
      simp only [jsOrDefault] at he
      split at he
      · rw [he]
      · exact absurd he (by decide)
  · intro u
    cases u with
    | none =>
      simp [updateAccessControlMenuItem]
    | some info =>
      simp only [updateAccessControlMenuItem, decide_eq_true_eq]
      constructor
      · intro h
        exact ⟨info, rfl, h⟩
      · rintro ⟨i, hi, h⟩
        cases hi
        exact h

/-- Witness for the amended C2 at concrete users. -/
theorem c2_amended_witness :
    hideEmployeeMenuItems (some { role := some "Employee" }) =
      employeeHiddenMenuEntries ∧
    updateAccessControlMenuItem (some { role := some "Super Admin" }) = true :=
  ⟨c2_amended_role_gating.1 { role := some "Employee" } rfl,
   (c2_amended_role_gating.2.2.2.2.2 (some { role := some "Super Admin" })).mpr
     ⟨{ role := some "Super Admin" }, rfl, rfl⟩⟩

/-- Claim C7: both badge-setting functions render the decimal string of the
count for 1..99, the literal `"99+"` for any count at or above 100, and hide
the badge for count 0. -/
theorem c7_badge_display (c : Nat) :
    (1 ≤ c → c ≤ 99 →
      setReversalBadgeCount c = some (Nat.repr c) ∧
      setAcknowledgmentBadgeCount c = some (Nat.repr c)) ∧
    (100 ≤ c →
      setReversalBadgeCount c = some "99+" ∧
      setAcknowledgmentBadgeCount c = some "99+") ∧
    (c = 0 →
      setReversalBadgeCount c = none ∧ setAcknowledgmentBadgeCount c = none) := by
  refine ⟨fun h1 h2 => ?_, fun h => ?_, fun h => ?_⟩
  · constructor
    · rw [setReversalBadgeCount, if_pos (by omega), if_neg (by omega)]
    · rw [setAcknowledgmentBadgeCount, if_pos (by omega), if_neg (by omega)]
  · constructor
    · rw [setReversalBadgeCount, if_pos (by omega), if_pos (by omega)]
    · rw [setAcknowledgmentBadgeCount, if_pos (by omega), if_pos (by omega)]
  · subst h
    constructor
    · rw [setReversalBadgeCount, if_neg (by omega)]
    · rw [setAcknowledgmentBadgeCount, if_neg (by omega)]

/-- Witness for C7 at the concrete counts 150, 7 and 0. -/
theorem c7_badge_display_witness :
    setReversalBadgeCount 150 = some "99+" ∧
    setReversalBadgeCount 7 = some "7" ∧
    setReversalBadgeCount 0 = none ∧
    setAcknowledgmentBadgeCount 150 = some "99+" ∧
    setAcknowledgmentBadgeCount 7 = some "7" ∧
    setAcknowledgmentBadgeCount 0 = none :=
  ⟨((c7_badge_display 150).2.1 (by decide)).1,
   ((c7_badge_display 7).1 (by decide) (by decide)).1,
   ((c7_badge_display 0).2.2 rfl).1,
   ((c7_badge_display 150).2.1 (by decide)).2,
   ((c7_badge_display 7).1 (by decide) (by decide)).2,
   ((c7_badge_display 0).2.2 rfl).2⟩

/-- Claim C8 is false as stated: when the recomputation fails while the
cached entry is stale, the fallback read inside the catch handler removes
the cached value and timestamp (they are not left unchanged), and the badge
falls back to zero (hidden) even though a cached value was present. -/
theorem c8_counterexample :
    lsGetItem c8StaleStore (getNotificationCacheKey none "reversals") =
      some "7" ∧
    lsGetItem (updatePendingReversalsCountCatch none 300001 c8StaleStore).1
      (getNotificationCacheKey none "reversals") = none ∧
    (updatePendingReversalsCountCatch none 300001 c8StaleStore).2 = none := by
  decide

/-- Claim C8 amended: a failed recomputation never overwrites the cache with
a new count — with a fresh cached entry the catch handler leaves the store
unchanged and displays the cached value, and with no cached entry it leaves
the store unchanged and displays zero (a stale entry, however, is cleared by
the fallback read); the cache is overwritten exactly by the success tail,
after which a fresh read returns the new count.  This holds for all three
categories. -/
theorem c8_amended_failure_fallback (u : Option UserInfo) (st : Store)
    (c t count tr : Nat) :
    ((tr - t ≤ CACHE_DURATION_MS →
      (getCachedNotificationCount u "reversals" tr
        (updatePendingReversalsCountSuccess u count t st).1).1 = some count) ∧
     (lsGetItem st (getNotificationCacheKey u "reversals") = some (Nat.repr c) →
      lsGetItem st (getNotificationCacheTimestampKey u "reversals") =
        some (Nat.repr t) →
      tr - t ≤ CACHE_DURATION_MS →
      updatePendingReversalsCountCatch u tr st =
        (st, setReversalBadgeCount c)) ∧
     (lsGetItem st (getNotificationCacheKey u "reversals") = none →
      updatePendingReversalsCountCatch u tr st =
        (st, setReversalBadgeCount 0))) ∧
    ((tr - t ≤ CACHE_DURATION_MS →
      (getCachedNotificationCount u "acknowledgments" tr
        (updatePendingAcknowledgmentsCountSuccess u count t st).1).1 =
        some count) ∧
     (lsGetItem st (getNotificationCacheKey u "acknowledgments") =
        some (Nat.repr c) →
      lsGetItem st (getNotificationCacheTimestampKey u "acknowledgments") =
        some (Nat.repr t) →
      tr - t ≤ CACHE_DURATION_MS →
      updatePendingAcknowledgmentsCountCatch u tr st =
        (st, setAcknowledgmentBadgeCount c)) ∧
     (lsGetItem st (getNotificationCacheKey u "acknowledgments") = none →
      updatePendingAcknowledgmentsCountCatch u tr st =
        (st, setAcknowledgmentBadgeCount 0))) ∧
    ((tr - t ≤ CACHE_DURATION_MS →
      (getCachedNotificationCount u "employeeReversals" tr
        (updateEmployeeReversalUpdatesCountSuccess u count t st).1).1 =
        some count) ∧
     (lsGetItem st (getNotificationCacheKey u "employeeReversals") =
        some (Nat.repr c) →
      lsGetItem st (getNotificationCacheTimestampKey u "employeeReversals") =
        some (Nat.repr t) →
      tr - t ≤ CACHE_DURATION_MS →
      updateEmployeeReversalUpdatesCountCatch u tr st =
        (st, setEmployeeReversalBadgeCount u c)) ∧
     (lsGetItem st (getNotificationCacheKey u "employeeReversals") = none →
      updateEmployeeReversalUpdatesCountCatch u tr st =
        (st, setEmployeeReversalBadgeCount u 0))) := by
  refine ⟨⟨fun h => ?_, fun hd ht hf => ?_, fun hd => ?_⟩,
    ⟨fun h => ?_, fun hd ht hf => ?_, fun hd => ?_⟩,
    ⟨fun h => ?_, fun hd ht hf => ?_, fun hd => ?_⟩⟩
  · dsimp only [updatePendingReversalsCountSuccess]
    rw [getCachedNotificationCount_after_set, if_neg (by omega)]
  · rw [updatePendingReversalsCountCatch,
      getCachedNotificationCount_of_fresh u "reversals" c t tr st hd ht hf]
  · rw [updatePendingReversalsCountCatch,
      getCachedNotificationCount_of_missing u "reversals" tr st hd]
  · dsimp only [updatePendingAcknowledgmentsCountSuccess]
    rw [getCachedNotificationCount_after_set, if_neg (by omega)]
  · rw [updatePendingAcknowledgmentsCountCatch,
      getCachedNotificationCount_of_fresh u "acknowledgments" c t tr st hd ht hf]
  · rw [updatePendingAcknowledgmentsCountCatch,
      getCachedNotificationCount_of_missing u "acknowledgments" tr st hd]
  · dsimp only [updateEmployeeReversalUpdatesCountSuccess]
    rw [getCachedNotificationCount_after_set, if_neg (by omega)]
  · rw [updateEmployeeReversalUpdatesCountCatch,
      getCachedNotificationCount_of_fresh u "employeeReversals" c t tr st hd ht hf]
  · rw [updateEmployeeReversalUpdatesCountCatch,
      getCachedNotificationCount_of_missing u "employeeReversals" tr st hd]

/-- Witness for the amended C8 at concrete inputs: after a successful write
of count 9 at time 50, a read at time 100 sees 9; and the catch handler on
the empty store displays zero without touching it. -/
theorem c8_amended_witness :
    (100 - 50 ≤ CACHE_DURATION_MS ∧
      (getCachedNotificationCount none "reversals" 100
        (updatePendingReversalsCountSuccess none 9 50 emptyStore).1).1 =
        some 9) ∧
    (lsGetItem emptyStore (getNotificationCacheKey none "reversals") = none ∧
      updatePendingReversalsCountCatch none 100 emptyStore =
        (emptyStore, setReversalBadgeCount 0)) :=
  ⟨⟨by decide,
    (c8_amended_failure_fallback none emptyStore 0 50 9 100).1.1 (by decide)⟩,
   ⟨rfl,
    (c8_amended_failure_fallback none emptyStore 0 50 9 100).1.2.2 rfl⟩⟩

end LoadSidebar
